import Mathlib

/-!
Verification of the template-service bootstrap
(src/services/template-service/src/main.py).

The file shallowly embeds the configuration normalization (lines 26-29),
the lifespan startup/shutdown sequence (lines 37-62) and the health
endpoint (lines 83-100) of the source, and proves the specified
properties about these embeddings.  Definitions come first, theorems
follow.
-/

namespace TemplateService

/-! ## Configuration normalization (main.py lines 26-29)

The source reads DATABASE_URL from the environment and, when it starts
with the generic scheme, rewrites the first occurrence of
"postgresql://" to "postgresql+asyncpg://" using Python
str.replace(old, new, 1). -/

/-- Model of Python str.startswith: the pattern is a list-prefix of the
string, compared on the underlying character lists. -/
def pyStartsWith (s p : String) : Bool := p.data.isPrefixOf s.data

/-- Model of Python str.replace(old, new, 1) on character lists: scan
from the left and replace the first occurrence of old by new, leaving
everything else unchanged. -/
def replaceFirstAux (old new : List Char) : List Char → List Char
  | [] => if old.isPrefixOf ([] : List Char) then new else []
  | c :: rest =>
    if old.isPrefixOf (c :: rest) then new ++ (c :: rest).drop old.length
    else c :: replaceFirstAux old new rest

/-- Model of Python str.replace(old, new, 1) on strings. -/
def pyReplaceFirst (s old new : String) : String :=
  ⟨replaceFirstAux old.data new.data s.data⟩

/-- The DATABASE_URL normalization of main.py lines 28-29:
if DATABASE_URL.startswith("postgresql://"), replace the first
occurrence of "postgresql://" by "postgresql+asyncpg://". -/
def normalizeDatabaseUrl (s : String) : String :=
  if pyStartsWith s "postgresql://" then
    pyReplaceFirst s "postgresql://" "postgresql+asyncpg://"
  else s

/-- The source guards the rewrite by `if DATABASE_URL and ...`:
a missing DATABASE_URL (None) is left untouched. -/
def normalizeDatabaseUrlEnv : Option String → Option String
  | none => none
  | some s => some (normalizeDatabaseUrl s)

/-! ## Health endpoint (main.py lines 83-100)

The handler sets db_connected = False, then in a try block opens a
session from state.async_session and executes select(1), setting
db_connected = True on success; a bare except catches any exception and
does nothing (pass).  It then returns a HealthResponse with constant
status and service strings, the current UTC time in ISO-8601 form, the
probe boolean, and `state.redis_client is not None`.

In the embedding, resource handles held by the state container are
Option Unit (present or absent), the outcome of the session-open plus
select(1) round trip at call time is an input Boolean probeOk, and the
string produced by datetime.now(timezone.utc).isoformat() is an input
`now`.  Python exceptions are Except.error values. -/

/-- The health response record of src/schemas (HealthResponse). -/
structure HealthResponse where
  status : String
  service : String
  timestamp : String
  database_connected : Bool
  redis_connected : Bool
deriving Repr, DecidableEq

/-- The body of the try block in health_check: invoking
state.async_session when it is None raises a TypeError; otherwise the
session round trip executing select(1) either succeeds (returning the
assignment db_connected = True) or raises a driver error. -/
def healthProbe (async_session : Option Unit) (probeOk : Bool) :
    Except String Bool :=
  match async_session with
  | none => Except.error "TypeError: NoneType object is not callable"
  | some _ =>
    if probeOk then Except.ok true
    else Except.error "OperationalError"

/-- The health_check handler (main.py lines 84-100).  The result type is
Except so that a propagating exception would be visible as an error; the
bare except clause maps every probe error to db_connected = False. -/
def health_check (async_session : Option Unit) (probeOk : Bool)
    (redis_client : Option Unit) (now : String) :
    Except String HealthResponse :=
  let db_connected : Bool :=
    match healthProbe async_session probeOk with
    | Except.ok b => b
    | Except.error _ => false
  Except.ok
    { status := "healthy"
      service := "template-service"
      timestamp := now
      database_connected := db_connected
      redis_connected := redis_client.isSome }

/-! ## Service lifecycle (main.py lines 37-62)

The lifespan function: inside a try block it constructs the async
engine, builds the session factory, runs Base.metadata.create_all
within a single `async with state.engine.begin()` transactional
connection, and connects the redis client; the except clause logs the
error and re-raises; then it yields (the framework serves traffic);
after the yield it disposes the engine if present and closes the redis
client if present, then logs shutdown.

The embedding records an event trace.  Each awaited acquisition step is
a begin/end event pair; three input Booleans say whether engine
construction, schema creation or redis connection raises.  When a step
raises, its end event is absent, the except clause logs and the
exception propagates, so the yield is never reached and the code after
the yield never runs (asynccontextmanager semantics: cleanup after the
yield runs only if the yield was reached). -/

/-- Events of the lifecycle trace. -/
inductive Ev where
  | poolBegin | poolEnd
  | sessionFactorySet
  | schemaBegin | schemaEnd
  | cacheBegin | cacheEnd
  | logStarted | logStartError
  | yieldTraffic
  | disposeBegin | disposeEnd
  | closeBegin | closeEnd
  | logShutdown
deriving DecidableEq, Repr

/-- The process-wide state container (src/services state): engine,
async_session and redis_client references, each initially None and
assigned at most once during startup. -/
structure SysState where
  engine : Option Unit
  async_session : Option Unit
  redis_client : Option Unit
deriving DecidableEq, Repr

/-- The try/except startup phase of lifespan (lines 39-54): returns the
event trace, the resulting state container, and whether an exception
propagated out (after being logged). -/
def startup (poolFails schemaFails cacheFails : Bool) :
    List Ev × SysState × Bool :=
  if poolFails then
    ([Ev.poolBegin, Ev.logStartError], ⟨none, none, none⟩, true)
  else if schemaFails then
    ([Ev.poolBegin, Ev.poolEnd, Ev.sessionFactorySet, Ev.schemaBegin,
      Ev.logStartError], ⟨some (), some (), none⟩, true)
  else if cacheFails then
    ([Ev.poolBegin, Ev.poolEnd, Ev.sessionFactorySet, Ev.schemaBegin,
      Ev.schemaEnd, Ev.cacheBegin, Ev.logStartError],
     ⟨some (), some (), none⟩, true)
  else
    ([Ev.poolBegin, Ev.poolEnd, Ev.sessionFactorySet, Ev.schemaBegin,
      Ev.schemaEnd, Ev.cacheBegin, Ev.cacheEnd, Ev.logStarted],
     ⟨some (), some (), some ()⟩, false)

/-- Awaiting dispose on the engine reference: on a None reference this
would raise (there is no such call in the source, because the source
guards it); on a live engine it closes all pooled connections. -/
def disposeEngine : Option Unit → Except String (List Ev)
  | some _ => Except.ok [Ev.disposeBegin, Ev.disposeEnd]
  | none => Except.error "AttributeError: NoneType has no attribute dispose"

/-- Awaiting close on the redis client reference, same shape. -/
def closeRedisClient : Option Unit → Except String (List Ev)
  | some _ => Except.ok [Ev.closeBegin, Ev.closeEnd]
  | none => Except.error "AttributeError: NoneType has no attribute close"

/-- The shutdown phase of lifespan (lines 58-62): two independent
check-then-release steps (`if state.engine:` then dispose,
`if state.redis_client:` then close) followed by the shutdown log. -/
def shutdown (s : SysState) : Except String (List Ev) :=
  match (if s.engine.isSome then disposeEngine s.engine
         else Except.ok []) with
  | Except.error e => Except.error e
  | Except.ok t1 =>
    match (if s.redis_client.isSome then closeRedisClient s.redis_client
           else Except.ok []) with
    | Except.error e => Except.error e
    | Except.ok t2 => Except.ok (t1 ++ t2 ++ [Ev.logShutdown])

/-- One full execution of the service lifecycle, as the hosting
framework drives the asynccontextmanager: if startup raises, the
exception propagates and neither the yield nor the cleanup code runs;
otherwise the service serves traffic (yield) and on shutdown the code
after the yield runs once.  Returns the trace, the final state
container, and whether an exception propagated. -/
def runLifecycle (poolFails schemaFails cacheFails : Bool) :
    List Ev × SysState × Bool :=
  let r := startup poolFails schemaFails cacheFails
  if r.2.2 then (r.1, r.2.1, true)
  else
    match shutdown r.2.1 with
    | Except.ok t2 => (r.1 ++ Ev.yieldTraffic :: t2, r.2.1, false)
    | Except.error _ => (r.1 ++ [Ev.yieldTraffic], r.2.1, true)

/-- Number of occurrences of an event in a trace. -/
def countEv (e : Ev) (tr : List Ev) : Nat := tr.count e

/-- Index of the first occurrence of an event in a trace (length of the
trace when absent). -/
def evIdx (e : Ev) : List Ev → Nat
  | [] => 0
  | x :: xs => if x = e then 0 else evIdx e xs + 1

/-! ## Theorems -/

theorem replaceFirstAux_of_isPrefixOf (old new : List Char) :
    ∀ l : List Char, old.isPrefixOf l = true →
      replaceFirstAux old new l = new ++ l.drop old.length := by
  intro l h
  cases l with
  | nil => simp [replaceFirstAux, h]
  | cons c rest => simp [replaceFirstAux, h]

theorem normalizeDatabaseUrl_eq_of_startsWith (s : String)
    (h : pyStartsWith s "postgresql://" = true) :
    normalizeDatabaseUrl s =
      ⟨"postgresql+asyncpg://".data ++ s.data.drop 13⟩ := by
  unfold normalizeDatabaseUrl pyReplaceFirst
  rw [if_pos h]
  unfold pyStartsWith at h
  rw [replaceFirstAux_of_isPrefixOf _ _ _ h]
  have hl : ("postgresql://".data).length = 13 := rfl
  rw [hl]

theorem generic_not_prefix_of_asyncpg (rest : List Char) :
    ("postgresql://".data).isPrefixOf ("postgresql+asyncpg://".data ++ rest)
      = false := rfl

/-- C3: for every DATABASE_URL beginning with "postgresql://", the
normalized URL begins with "postgresql+asyncpg://" and the remainder of
the string after the scheme prefix is character-for-character unchanged
(the whole result equals the new scheme followed by the original string
with its 13-character scheme prefix removed, so only that first
occurrence of the prefix is rewritten). -/
theorem C3_normalize_rewrites_scheme (s : String)
    (h : pyStartsWith s "postgresql://" = true) :
    pyStartsWith (normalizeDatabaseUrl s) "postgresql+asyncpg://" = true ∧
    (normalizeDatabaseUrl s).data.drop ("postgresql+asyncpg://".data.length)
      = s.data.drop ("postgresql://".data.length) ∧
    normalizeDatabaseUrl s = ⟨"postgresql+asyncpg://".data ++ s.data.drop 13⟩ := by
  have he := normalizeDatabaseUrl_eq_of_startsWith s h
  refine ⟨?_, ?_, he⟩
  · unfold pyStartsWith
    rw [he]
    exact List.isPrefixOf_iff_prefix.mpr (List.prefix_append _ _)
  · rw [he]
    show ("postgresql+asyncpg://".data ++ s.data.drop 13).drop
        ("postgresql+asyncpg://".data.length) = _
    rw [List.drop_left]
    rfl

/-- Witness for C3 at the concrete URL of the spec example. -/
theorem C3_normalize_rewrites_scheme_witness :
    pyStartsWith (normalizeDatabaseUrl "postgresql://u:p@host/db")
      "postgresql+asyncpg://" = true ∧
    (normalizeDatabaseUrl "postgresql://u:p@host/db").data.drop
        ("postgresql+asyncpg://".data.length)
      = ("postgresql://u:p@host/db").data.drop ("postgresql://".data.length) ∧
    normalizeDatabaseUrl "postgresql://u:p@host/db" =
      ⟨"postgresql+asyncpg://".data ++ ("postgresql://u:p@host/db").data.drop 13⟩ :=
  C3_normalize_rewrites_scheme "postgresql://u:p@host/db" (by decide)

/-- C4: normalization is a no-op on every string not beginning with
"postgresql://", and applying the normalization twice always equals
applying it once (idempotence). -/
theorem C4_normalize_noop_and_idempotent (s : String) :
    (pyStartsWith s "postgresql://" = false → normalizeDatabaseUrl s = s) ∧
    normalizeDatabaseUrl (normalizeDatabaseUrl s) = normalizeDatabaseUrl s := by
  constructor
  · intro h
    unfold normalizeDatabaseUrl
    rw [h]
    rfl
  · by_cases h : pyStartsWith s "postgresql://" = true
    · have he := normalizeDatabaseUrl_eq_of_startsWith s h
      rw [he]
      have hnp : pyStartsWith
          (⟨"postgresql+asyncpg://".data ++ s.data.drop 13⟩ : String)
          "postgresql://" = false := generic_not_prefix_of_asyncpg _
      unfold normalizeDatabaseUrl
      rw [hnp]
      rfl
    · have hf : pyStartsWith s "postgresql://" = false := by
        simpa using h
      have hs : normalizeDatabaseUrl s = s := by
        unfold normalizeDatabaseUrl
        rw [hf]
        rfl
      rw [hs, hs]

/-- Witness for C4 at an already-normalized URL. -/
theorem C4_normalize_noop_and_idempotent_witness :
    normalizeDatabaseUrl "postgresql+asyncpg://u:p@host/db"
      = "postgresql+asyncpg://u:p@host/db" ∧
    normalizeDatabaseUrl (normalizeDatabaseUrl "postgresql+asyncpg://u:p@host/db")
      = normalizeDatabaseUrl "postgresql+asyncpg://u:p@host/db" :=
  ⟨(C4_normalize_noop_and_idempotent "postgresql+asyncpg://u:p@host/db").1 (by decide),
   (C4_normalize_noop_and_idempotent "postgresql+asyncpg://u:p@host/db").2⟩

/-- C1: the health endpoint never raises to the caller: for every state
of the session factory, every probe outcome and every cache-client
state, the handler returns a structured response, and whenever the probe
body raised an exception the response degrades to
database_connected = false. -/
theorem C1_health_never_raises (a : Option Unit) (p : Bool)
    (r : Option Unit) (n : String) :
    ∃ resp, health_check a p r n = Except.ok resp ∧
      ∀ msg, healthProbe a p = Except.error msg →
        resp.database_connected = false := by
  cases a <;> cases p <;>
    exact ⟨_, rfl, by intro msg hm; simp_all [healthProbe]⟩

/-- Witness for C1: with no session factory and probeOk = true the
handler still answers with database_connected = false. -/
theorem C1_health_never_raises_witness :
    ∃ resp, health_check none true (some ()) "2025-01-01T00:00:00+00:00"
        = Except.ok resp ∧
      ∀ msg, healthProbe none true = Except.error msg →
        resp.database_connected = false :=
  C1_health_never_raises none true (some ()) "2025-01-01T00:00:00+00:00"

/-- C6: the returned redis_connected field is true iff the stored cache
client reference is non-null, independently of the database probe and
thus of any live reachability information. -/
theorem C6_redis_presence_check (a : Option Unit) (p : Bool)
    (r : Option Unit) (n : String) :
    ∃ resp, health_check a p r n = Except.ok resp ∧
      (resp.redis_connected = true ↔ r.isSome = true) := by
  cases a <;> cases p <;> exact ⟨_, rfl, Iff.rfl⟩

/-- C7: regardless of the probe outcome and the cache presence check,
the response carries status "healthy", service "template-service" and
the timestamp string obtained from the current UTC clock at call time
(datetime.now(timezone.utc).isoformat(), the `now` input). -/
theorem C7_constant_fields (a : Option Unit) (p : Bool)
    (r : Option Unit) (n : String) :
    ∃ resp, health_check a p r n = Except.ok resp ∧
      resp.status = "healthy" ∧
      resp.service = "template-service" ∧
      resp.timestamp = n := by
  cases a <;> cases p <;> exact ⟨_, rfl, rfl, rfl, rfl⟩

/-- C10: when the session factory was never initialized (async_session
is none), invoking it raises, the bare except catches that error, and
the endpoint still returns a response with database_connected = false. -/
theorem C10_null_session_factory (p : Bool) (r : Option Unit)
    (n : String) :
    (∃ msg, healthProbe none p = Except.error msg) ∧
    ∃ resp, health_check none p r n = Except.ok resp ∧
      resp.database_connected = false := by
  exact ⟨⟨_, rfl⟩, _, rfl, rfl⟩

/-- C2 counterexample: in the execution where redis connection fails
after the database pool was acquired (startup succeeded only in part),
the final state holds a live engine yet the trace contains no release
event at all, so the claimed release sequence does not occur; moreover,
even in the fully successful execution the releases happen in the order
dispose-pool then close-cache, not the claimed close-cache then
dispose-pool. -/
theorem C2_counterexample :
    (runLifecycle false false true).2.1.engine = some () ∧
    Ev.disposeBegin ∉ (runLifecycle false false true).1 ∧
    Ev.disposeEnd ∉ (runLifecycle false false true).1 ∧
    Ev.closeBegin ∉ (runLifecycle false false true).1 ∧
    evIdx Ev.disposeEnd (runLifecycle false false false).1
      < evIdx Ev.closeBegin (runLifecycle false false false).1 := by
  decide

/-- C2 (amended): in every execution in which startup fully succeeded,
exactly one release sequence — dispose the database pool, then close
the cache client — occurs after the service stops accepting traffic
(after the yield); in every execution in which startup failed, including
ones that succeeded only in part, no release occurs because the
propagating exception prevents the code after the yield from running. -/
theorem C2_release_sequence (pf sf cf : Bool) :
    ((runLifecycle pf sf cf).2.2 = false →
      countEv Ev.disposeEnd (runLifecycle pf sf cf).1 = 1 ∧
      countEv Ev.closeEnd (runLifecycle pf sf cf).1 = 1 ∧
      evIdx Ev.yieldTraffic (runLifecycle pf sf cf).1
        < evIdx Ev.disposeBegin (runLifecycle pf sf cf).1 ∧
      evIdx Ev.disposeEnd (runLifecycle pf sf cf).1
        < evIdx Ev.closeBegin (runLifecycle pf sf cf).1) ∧
    ((runLifecycle pf sf cf).2.2 = true →
      countEv Ev.disposeEnd (runLifecycle pf sf cf).1 = 0 ∧
      countEv Ev.closeEnd (runLifecycle pf sf cf).1 = 0) := by
  cases pf <;> cases sf <;> cases cf <;> decide

/-- Witness for C2 (amended): the fully successful run releases each
resource exactly once, and the run with failing redis releases none. -/
theorem C2_release_sequence_witness :
    (countEv Ev.disposeEnd (runLifecycle false false false).1 = 1 ∧
     countEv Ev.closeEnd (runLifecycle false false false).1 = 1 ∧
     evIdx Ev.yieldTraffic (runLifecycle false false false).1
       < evIdx Ev.disposeBegin (runLifecycle false false false).1 ∧
     evIdx Ev.disposeEnd (runLifecycle false false false).1
       < evIdx Ev.closeBegin (runLifecycle false false false).1) ∧
    (countEv Ev.disposeEnd (runLifecycle false false true).1 = 0 ∧
     countEv Ev.closeEnd (runLifecycle false false true).1 = 0) :=
  ⟨(C2_release_sequence false false false).1 (by decide),
   (C2_release_sequence false false true).2 (by decide)⟩

/-- C5: in every execution in which some startup acquisition step
(engine construction, schema creation, or redis connection) raises, the
error is logged and the exception propagates out of startup, and the
service never begins serving traffic (no yield in the trace). -/
theorem C5_startup_failure_is_fatal (pf sf cf : Bool)
    (h : pf = true ∨ sf = true ∨ cf = true) :
    (runLifecycle pf sf cf).2.2 = true ∧
    Ev.logStartError ∈ (runLifecycle pf sf cf).1 ∧
    Ev.yieldTraffic ∉ (runLifecycle pf sf cf).1 := by
  cases pf <;> cases sf <;> cases cf <;> simp_all <;> decide

/-- Witness for C5 with a failing engine construction. -/
theorem C5_startup_failure_is_fatal_witness :
    (runLifecycle true false false).2.2 = true ∧
    Ev.logStartError ∈ (runLifecycle true false false).1 ∧
    Ev.yieldTraffic ∉ (runLifecycle true false false).1 :=
  C5_startup_failure_is_fatal true false false (Or.inl rfl)

/-- C8: for every shutdown state, the two check-then-release steps are
independent and never raise: shutdown returns normally; when the engine
reference is null no dispose happens but a present cache client is still
closed, and when the cache reference is null no close happens but a
present engine is still disposed. -/
theorem C8_independent_release (e a r : Option Unit) :
    ∃ tr, shutdown ⟨e, a, r⟩ = Except.ok tr ∧
      (e = none → Ev.disposeBegin ∉ tr ∧
        (r.isSome = true → Ev.closeEnd ∈ tr)) ∧
      (r = none → Ev.closeBegin ∉ tr ∧
        (e.isSome = true → Ev.disposeEnd ∈ tr)) := by
  cases e <;> cases r <;> exact ⟨_, rfl, by simp [shutdown], by simp [shutdown]⟩

/-- Witness for C8: engine absent, cache present — no dispose, cache
still closed, nothing raised. -/
theorem C8_independent_release_witness :
    ∃ tr, shutdown ⟨none, none, some ()⟩ = Except.ok tr ∧
      (none = (none : Option Unit) → Ev.disposeBegin ∉ tr ∧
        ((some ()).isSome = true → Ev.closeEnd ∈ tr)) ∧
      ((some () : Option Unit) = none → Ev.closeBegin ∉ tr ∧
        ((none : Option Unit).isSome = true → Ev.disposeEnd ∈ tr)) :=
  C8_independent_release none none (some ())

/-- C9: startup acquisition is strictly sequential in the order pool,
then schema initialization, then cache: in every startup trace the pool
construction begins first, schema creation begins only after pool
construction completed, and the redis connection begins only after
schema creation completed. -/
theorem C9_startup_sequential (pf sf cf : Bool) :
    Ev.poolBegin ∈ (startup pf sf cf).1 ∧
    evIdx Ev.poolBegin (startup pf sf cf).1 = 0 ∧
    (Ev.schemaBegin ∈ (startup pf sf cf).1 →
      Ev.poolEnd ∈ (startup pf sf cf).1 ∧
      evIdx Ev.poolEnd (startup pf sf cf).1
        < evIdx Ev.schemaBegin (startup pf sf cf).1) ∧
    (Ev.cacheBegin ∈ (startup pf sf cf).1 →
      Ev.schemaEnd ∈ (startup pf sf cf).1 ∧
      evIdx Ev.schemaEnd (startup pf sf cf).1
        < evIdx Ev.cacheBegin (startup pf sf cf).1) := by
  cases pf <;> cases sf <;> cases cf <;> decide

/-- Witness for C9 on the fully successful startup. -/
theorem C9_startup_sequential_witness :
    Ev.poolEnd ∈ (startup false false false).1 ∧
    evIdx Ev.poolEnd (startup false false false).1
      < evIdx Ev.schemaBegin (startup false false false).1 ∧
    Ev.schemaEnd ∈ (startup false false false).1 ∧
    evIdx Ev.schemaEnd (startup false false false).1
      < evIdx Ev.cacheBegin (startup false false false).1 :=
  ⟨((C9_startup_sequential false false false).2.2.1 (by decide)).1,
   ((C9_startup_sequential false false false).2.2.1 (by decide)).2,
   ((C9_startup_sequential false false false).2.2.2 (by decide)).1,
   ((C9_startup_sequential false false false).2.2.2 (by decide)).2⟩

end TemplateService
